import Mathlib

/-!
Verification development for the sf-tracing repository (Go).

The repository has two parts:

* `trace_id.go` — trace-identifier generation and context binding
  (`GetTraceID`, `WithTraceID`, `NewFixedTraceID`, ...), built on the
  OpenTelemetry `trace` package.
* `tracing.go` — `SetupOpenTelemetry`, which parses one configuration URL
  and dispatches to one of five backend registration functions
  (`registerStdout`, `registerCloudTrace`, `registerOtelcol`,
  `registerZipkin`, `registerJaeger`).

We shallowly embed this code in Lean.  Bytes are `Nat`s (all byte values
produced here come from hex decoding, hence are `< 256`; no arithmetic
overflows occur).  Go's `panic` is modelled by `Option` (`none` = panic).
External collaborators (the OpenTelemetry SDK constructors, `grpc.Dial`,
`strconv.ParseFloat`, `url.Parse`) are modelled as parameters: an `Env`
record of constructor outcomes, and the outcome of `url.Parse` passed
explicitly to the setup entry point.  Randomness (`NewRandomSpanID`) is
modelled by passing the generated span id as an explicit argument.
-/

/-! ## Trace identifiers (`trace_id.go`) -/

/-- The all-zero 16-byte TraceID, Go `trace.TraceID{}` — the invalid value. -/
def zeroTraceID16 : List Nat := List.replicate 16 0

/-- Go `TraceID.IsValid`: a TraceID is valid iff it is not the zero value. -/
def traceIDIsValid (t : List Nat) : Bool := !(t == zeroTraceID16)

/-- Value of one hexadecimal character, as in Go `encoding/hex.fromHexChar`:
digits, lower-case `a`-`f` and upper-case `A`-`F` are accepted. -/
def hexDigitValue (c : Char) : Option Nat :=
  if '0' ≤ c ∧ c ≤ '9' then some (c.toNat - '0'.toNat)
  else if 'a' ≤ c ∧ c ≤ 'f' then some (c.toNat - 'a'.toNat + 10)
  else if 'A' ≤ c ∧ c ≤ 'F' then some (c.toNat - 'A'.toNat + 10)
  else none

/-- Go `encoding/hex.DecodeString`: decodes consecutive pairs of hex
characters into bytes; fails on odd length or on any non-hex character. -/
def hexDecode : List Char → Option (List Nat)
  | [] => some []
  | [_] => none
  | hi :: lo :: rest =>
    match hexDigitValue hi, hexDigitValue lo, hexDecode rest with
    | some h, some l, some r => some ((16 * h + l) :: r)
    | _, _, _ => none

/-- `NewFixedTraceID` (trace_id.go): panics (`none`) unless the input is a
32-character hex string; otherwise copies the 16 decoded bytes into the
TraceID. -/
def NewFixedTraceID (hexTraceID : String) : Option (List Nat) :=
  if hexTraceID.length ≠ 32 then none
  else
    match hexDecode hexTraceID.toList with
    | none => none
    | some bytes => some bytes

/-- `NewZeroedTraceID` (trace_id.go). -/
def NewZeroedTraceID : Option (List Nat) :=
  NewFixedTraceID "00000000000000000000000000000000"

/-! ## Context binding (`trace_id.go` + OpenTelemetry `trace` package)

A Go `context.Context` is a chain of derived contexts; `ContextWithSpanContext`
derives a child context holding a non-recording span around the given span
context, and `SpanFromContext` walks the chain for the innermost span (a
no-op span with a zero SpanContext when none is found).  We model the chain
as a list, newest entry first. -/

/-- OpenTelemetry `trace.SpanContext` (the fields this repository uses). -/
structure SpanContext where
  traceID : List Nat
  spanID : List Nat
  remote : Bool
  deriving DecidableEq

/-- One derivation step of a Go context: either a stored span (what
`trace.ContextWithSpanContext` adds) or some unrelated key/value pair. -/
inductive CtxEntry where
  | span (sc : SpanContext)
  | value (k v : String)
  deriving DecidableEq

/-- A Go `context.Context`: the chain of derivations, newest first. -/
abbrev Context := List CtxEntry

/-- OpenTelemetry `trace.NewSpanContext` applied to a `SpanContextConfig`
with the given TraceID, SpanID and Remote flag (no validation occurs). -/
def NewSpanContext (traceID spanID : List Nat) (remote : Bool) : SpanContext :=
  ⟨traceID, spanID, remote⟩

/-- OpenTelemetry `trace.ContextWithSpanContext`: derives a child context
storing a non-recording span around `sc`. The parent is untouched. -/
def ContextWithSpanContext (ctx : Context) (sc : SpanContext) : Context :=
  CtxEntry.span sc :: ctx

/-- OpenTelemetry `trace.SpanFromContext`, as the innermost stored span
context; `none` models the no-op span returned when no span is stored
(whose `SpanContext` is the zero value). -/
def SpanFromContext : Context → Option SpanContext
  | [] => none
  | CtxEntry.span sc :: _ => some sc
  | CtxEntry.value _ _ :: rest => SpanFromContext rest

/-- `GetTraceID` (trace_id.go): the TraceID of the span in the context, or
the invalid all-zero TraceID.  (In Go the `span != nil` guard never fires
because `SpanFromContext` returns a no-op span whose TraceID is the zero
value; either way the result for a span-free context is the zero TraceID.) -/
def GetTraceID (ctx : Context) : List Nat :=
  match SpanFromContext ctx with
  | some sc => sc.traceID
  | none => zeroTraceID16

/-- `WithTraceID` (trace_id.go): derives a context holding a new span
context with the given TraceID and a freshly randomized SpanID.  The random
SpanID produced by `NewRandomSpanID()` is passed explicitly as `sid`. -/
def WithTraceID (ctx : Context) (traceID : List Nat) (sid : List Nat) : Context :=
  ContextWithSpanContext ctx (NewSpanContext traceID sid false)

/-! ## Configuration and backend setup (`tracing.go`)

The OpenTelemetry SDK pieces (`stdouttrace.New`, `texporter.New`,
`resource.New`/`resource.Merge`, `grpc.DialContext`, `otlptracegrpc.New`,
`zipkin.New`, `jaeger.New`) and `strconv.ParseFloat` are external
collaborators: each call site's outcome is a field of `Env`.  `url.Parse`
is external too; its outcome on the configuration string is passed to
`SetupOpenTelemetry` explicitly. -/

/-- An exporter handle produced by one of the SDK exporter constructors. -/
structure Exporter where
  tag : String
  deriving DecidableEq

/-- A resource descriptor produced by `resource.New` / `resource.Merge`. -/
structure Resource where
  tag : String
  deriving DecidableEq

/-- A gRPC client connection produced by `grpc.DialContext`. -/
structure Conn where
  target : String
  deriving DecidableEq

/-- The parts of a parsed `url.URL` this code reads: `u.Scheme`, `u.Host`
(`host[:port]`), and the query parameters in order. -/
structure URL where
  scheme : String
  host : String
  query : List (String × String)
  deriving DecidableEq

/-- Go `url.Values.Get`: first value associated to the key, `""` if absent. -/
def URL.queryGet (u : URL) (key : String) : String :=
  match u.query.find? (fun p => p.1 = key) with
  | some p => p.2
  | none => ""

/-- The sampler installed on the tracer provider: `defaultSampler` when no
`trace.WithSampler` option is given (stdout), `trace.TraceIDRatioBased r`
(cloudtrace), or `trace.AlwaysSample()` (otelcol/zipkin/jaeger). -/
inductive Sampler where
  | defaultSampler
  | ratioBased (r : Rat)
  | alwaysSample
  deriving DecidableEq

/-- What a backend registration wires into the tracer provider it installs
with `otel.SetTracerProvider`.  `endpoint` records the endpoint string
handed to the exporter constructor, when the backend builds one. -/
structure ProviderDesc where
  backend : String
  serviceName : String
  sampler : Sampler
  exporter : Option Exporter
  endpoint : Option String
  resource : Resource
  deriving DecidableEq

/-- Process-wide state written by setup: the tracer provider installed via
`otel.SetTracerProvider` (`none` = left untouched) and whether
`otel.SetTextMapPropagator(propagation.TraceContext)` was called. -/
structure GlobalState where
  provider : Option ProviderDesc
  propagator : Bool
  deriving DecidableEq

/-- Errors returned by setup, one constructor per distinct error site:
`configError` for the URL-parse and ratio-parse failures, `unsupportedScheme`
for an unrecognized scheme, `backendInitError` for wrapped constructor
failures, and `exporterError` for the one place (jaeger) that returns the
constructor error unwrapped. -/
inductive SetupError where
  | configError (msg : String)
  | unsupportedScheme (scheme : String)
  | backendInitError (msg : String)
  | exporterError (msg : String)
  deriving DecidableEq

/-- Outcomes of the external collaborator calls made by `tracing.go`, one
field per call site.  `parseFloat` models `strconv.ParseFloat` (`none` =
parse error); its numeric result is represented as a rational. -/
structure Env where
  stdoutNew : Except String Exporter
  resStdout : Except String Resource
  texporterNew : String → Except String Exporter
  resCloud : Except String Resource
  parseFloat : String → Option Rat
  resOtelcol : Except String Resource
  grpcDial : String → Except String Conn
  otlpNew : Conn → Except String Exporter
  resZipkin : Except String Resource
  zipkinNew : String → Except String Exporter
  resJaeger : Except String Resource
  jaegerNew : String → Except String Exporter

/-- `registerStdout` (tracing.go): stdout exporter, merged resource, no
sampler override, no propagator installation. -/
def registerStdout (env : Env) (serviceName : String) (_u : URL) :
    Except SetupError GlobalState :=
  match env.stdoutNew with
  | .error e => .error (.backendInitError ("creating stdout exporter: " ++ e))
  | .ok exp =>
    match env.resStdout with
    | .error e => .error (.backendInitError ("creating stdout resource: " ++ e))
    | .ok res =>
      .ok { provider := some { backend := "stdout", serviceName := serviceName,
                               sampler := .defaultSampler, exporter := some exp,
                               endpoint := none, resource := res },
            propagator := false }

/-- `registerCloudTrace` (tracing.go): cloud-trace exporter keyed by the
`project_id` query parameter, GCP-detected resource, ratio-based sampler
from `strconv.ParseFloat(u.Query().Get("ratio"), 64)` — the parse error is
returned as is, there is no fallback when `ratio` is absent (`Get` then
yields `""`, which does not parse).  No propagator installation. -/
def registerCloudTrace (env : Env) (serviceName : String) (u : URL) :
    Except SetupError GlobalState :=
  let projectID := u.queryGet "project_id"
  match env.texporterNew projectID with
  | .error e => .error (.backendInitError ("creating cloudtrace exporter: " ++ e))
  | .ok exp =>
    match env.resCloud with
    | .error e => .error (.backendInitError ("creating resource: " ++ e))
    | .ok res =>
      match env.parseFloat (u.queryGet "ratio") with
      | none => .error (.configError "parsing ratio")
      | some ratio =>
        .ok { provider := some { backend := "cloudtrace", serviceName := serviceName,
                                 sampler := .ratioBased ratio, exporter := some exp,
                                 endpoint := none, resource := res },
              propagator := false }

/-- `registerOtelcol` (tracing.go): resource, blocking gRPC dial to
`u.Host` (one-second timeout), OTLP exporter over the connection,
always-sample, and the TraceContext propagator. -/
def registerOtelcol (env : Env) (serviceName : String) (u : URL) :
    Except SetupError GlobalState :=
  match env.resOtelcol with
  | .error e => .error (.backendInitError ("failed to create resource: " ++ e))
  | .ok res =>
    match env.grpcDial u.host with
    | .error e =>
      .error (.backendInitError ("failed to create gRPC connection to collector: " ++ e))
    | .ok conn =>
      match env.otlpNew conn with
      | .error e => .error (.backendInitError ("failed to create trace exporter: " ++ e))
      | .ok exp =>
        .ok { provider := some { backend := "otelcol", serviceName := serviceName,
                                 sampler := .alwaysSample, exporter := some exp,
                                 endpoint := none, resource := res },
              propagator := true }

/-- `registerZipkin` (tracing.go): resource, then a zipkin exporter for
the endpoint `scheme://host/api/v2/spans` built from the `scheme` query
parameter and `u.Host`.  The error returned by `zipkin.New` is assigned
but never checked, so registration proceeds (and returns success) even
when the constructor fails; always-sample; TraceContext propagator. -/
def registerZipkin (env : Env) (serviceName : String) (u : URL) :
    Except SetupError GlobalState :=
  match env.resZipkin with
  | .error e => .error (.backendInitError ("failed to create resource: " ++ e))
  | .ok res =>
    let endpoint := u.queryGet "scheme" ++ "://" ++ u.host ++ "/api/v2/spans"
    let traceExporter :=
      match env.zipkinNew endpoint with
      | .ok exp => some exp
      | .error _ => none
    .ok { provider := some { backend := "zipkin", serviceName := serviceName,
                             sampler := .alwaysSample, exporter := traceExporter,
                             endpoint := some endpoint, resource := res },
          propagator := true }

/-- `registerJaeger` (tracing.go): resource, jaeger exporter for the
collector endpoint `scheme://host/api/traces` (constructor error returned
unwrapped), always-sample, TraceContext propagator. -/
def registerJaeger (env : Env) (serviceName : String) (u : URL) :
    Except SetupError GlobalState :=
  match env.resJaeger with
  | .error e => .error (.backendInitError ("failed to create resource: " ++ e))
  | .ok res =>
    let endpoint := u.queryGet "scheme" ++ "://" ++ u.host ++ "/api/traces"
    match env.jaegerNew endpoint with
    | .error e => .error (.exporterError e)
    | .ok exp =>
      .ok { provider := some { backend := "jaeger", serviceName := serviceName,
                               sampler := .alwaysSample, exporter := some exp,
                               endpoint := some endpoint, resource := res },
            propagator := true }

/-- `SetupOpenTelemetry` (tracing.go): reads the configuration string
(`conf`, the value of the `SF_TRACING` environment variable); empty means
success with tracing left disabled; otherwise the string is handed to
`url.Parse` — `parsed` is that call's outcome — a parse failure is a
configuration error, and the scheme selects among the five backends, any
other scheme being unsupported. -/
def SetupOpenTelemetry (env : Env) (serviceName : String) (conf : String)
    (parsed : Except String URL) : Except SetupError GlobalState :=
  if conf = "" then .ok { provider := none, propagator := false }
  else
    match parsed with
    | .error e =>
      .error (.configError ("parsing env var DTRACING with value " ++ conf ++ ": " ++ e))
    | .ok u =>
      match u.scheme with
      | "stdout" => registerStdout env serviceName u
      | "cloudtrace" => registerCloudTrace env serviceName u
      | "otelcol" => registerOtelcol env serviceName u
      | "zipkin" => registerZipkin env serviceName u
      | "jaeger" => registerJaeger env serviceName u
      | s => .error (.unsupportedScheme s)

/-! ### Concrete instances used by witnesses and counterexamples -/

/-- A concrete exporter handle. -/
def expOK : Exporter := ⟨"exporter"⟩

/-- A concrete resource descriptor. -/
def resOK : Resource := ⟨"resource"⟩

/-- A concrete gRPC connection. -/
def connOK : Conn := ⟨"collector"⟩

/-- An environment in which every external constructor succeeds and the
float parser accepts exactly the literal `0.25` (in particular it rejects
the empty string, as `strconv.ParseFloat` does). -/
def envOK : Env where
  stdoutNew := .ok expOK
  resStdout := .ok resOK
  texporterNew := fun _ => .ok expOK
  resCloud := .ok resOK
  parseFloat := fun s => if s = "0.25" then some (1/4 : Rat) else none
  resOtelcol := .ok resOK
  grpcDial := fun _ => .ok connOK
  otlpNew := fun _ => .ok expOK
  resZipkin := .ok resOK
  zipkinNew := fun _ => .ok expOK
  resJaeger := .ok resOK
  jaegerNew := fun _ => .ok expOK

/-! ## Lemmas about hex decoding -/

/-- A decoded byte list is half as long as the hex input. -/
theorem hexDecode_length (l : List Char) :
    ∀ bs, hexDecode l = some bs → 2 * bs.length = l.length := by
  induction l using hexDecode.induct with
  | case1 =>
    intro bs hsome
    simp only [hexDecode, Option.some.injEq] at hsome
    subst hsome
    simp
  | case2 a =>
    intro bs hsome
    simp [hexDecode] at hsome
  | case3 hi lo rest hn ln rn hdecr hlo hhi ih =>
    intro bs hsome
    simp only [hexDecode, hhi, hlo, hdecr, Option.some.injEq] at hsome
    subst hsome
    have := ih rn hdecr
    simp only [List.length_cons]
    omega
  | case4 hi lo rest hfail _ih =>
    intro bs hsome
    exfalso
    cases hhi : hexDigitValue hi <;> cases hlo : hexDigitValue lo <;>
      cases hr : hexDecode rest <;>
      simp only [hexDecode, hhi, hlo, hr] at hsome <;>
      first
        | exact Option.noConfusion hsome
        | exact hfail _ _ _ hhi hlo hr

/-- On even-length input, decoding fails exactly when some character is not
a hex digit. -/
theorem hexDecode_eq_none_iff (l : List Char) (heven : l.length % 2 = 0) :
    hexDecode l = none ↔ ∃ c ∈ l, hexDigitValue c = none := by
  induction l using hexDecode.induct with
  | case1 => simp [hexDecode]
  | case2 a => simp at heven
  | case3 hi lo rest hn ln rn hdecr hlo hhi ih =>
    have heven' : rest.length % 2 = 0 := by
      simp only [List.length_cons] at heven
      omega
    constructor
    · intro hnone
      exfalso
      simp only [hexDecode, hhi, hlo, hdecr] at hnone
      exact Option.noConfusion hnone
    · rintro ⟨c, hc, hcn⟩
      exfalso
      rcases List.mem_cons.mp hc with hceq | hc2
      · subst hceq
        rw [hhi] at hcn
        cases hcn
      · rcases List.mem_cons.mp hc2 with hceq | hc3
        · subst hceq
          rw [hlo] at hcn
          cases hcn
        · have hrn : hexDecode rest = none := (ih heven').mpr ⟨c, hc3, hcn⟩
          rw [hdecr] at hrn
          cases hrn
  | case4 hi lo rest hfail ih =>
    have heven' : rest.length % 2 = 0 := by
      simp only [List.length_cons] at heven
      omega
    constructor
    · intro _
      cases hhi : hexDigitValue hi with
      | none => exact ⟨hi, List.mem_cons_self _ _, hhi⟩
      | some hv =>
        cases hlo : hexDigitValue lo with
        | none => exact ⟨lo, List.mem_cons.mpr (Or.inr (List.mem_cons_self _ _)), hlo⟩
        | some lv =>
          cases hr : hexDecode rest with
          | none =>
            obtain ⟨c, hc, hcn⟩ := (ih heven').mp hr
            exact ⟨c, List.mem_cons.mpr (Or.inr (List.mem_cons.mpr (Or.inr hc))), hcn⟩
          | some rv => exact (hfail hv lv rv hhi hlo hr).elim
    · intro _
      cases hhi : hexDigitValue hi <;> cases hlo : hexDigitValue lo <;>
        cases hr : hexDecode rest <;>
        simp only [hexDecode, hhi, hlo, hr] <;>
        first
          | rfl
          | exact (hfail _ _ _ hhi hlo hr).elim

/-! ## Claim theorems: identifier generation and context binding -/

/-- C5: `NewFixedTraceID h` panics (returns `none`) whenever `h` does not
have length 32 or contains a non-hex character, and on a valid 32-character
hex string it returns the 16 decoded bytes. -/
theorem newFixedTraceID_spec (h : String) :
    ((h.length ≠ 32 ∨ ∃ c ∈ h.toList, hexDigitValue c = none) →
       NewFixedTraceID h = none) ∧
    (h.length = 32 → (∀ c ∈ h.toList, hexDigitValue c ≠ none) →
       ∃ bs, NewFixedTraceID h = some bs ∧ bs.length = 16 ∧
         hexDecode h.toList = some bs) := by
  have hlen : h.toList.length = h.length := rfl
  constructor
  · intro hyp
    by_cases hl : h.length = 32
    · rcases hyp with h32 | ⟨c, hc, hcn⟩
      · exact absurd hl h32
      · have heven : h.toList.length % 2 = 0 := by rw [hlen, hl]
        have hdec : hexDecode h.toList = none :=
          (hexDecode_eq_none_iff h.toList heven).mpr ⟨c, hc, hcn⟩
        unfold NewFixedTraceID
        rw [if_neg (by simp [hl]), hdec]
    · unfold NewFixedTraceID
      rw [if_pos hl]
  · intro hl hall
    have heven : h.toList.length % 2 = 0 := by rw [hlen, hl]
    have hnn : hexDecode h.toList ≠ none := by
      intro hdec
      obtain ⟨c, hc, hcn⟩ := (hexDecode_eq_none_iff h.toList heven).mp hdec
      exact hall c hc hcn
    cases hdec : hexDecode h.toList with
    | none => exact absurd hdec hnn
    | some bs =>
      refine ⟨bs, ?_, ?_, rfl⟩
      · unfold NewFixedTraceID
        rw [if_neg (by simp [hl]), hdec]
      · have := hexDecode_length h.toList bs hdec
        rw [hlen, hl] at this
        omega

/-- C5 witness: a short non-hex string panics; a concrete valid hex string
decodes to 16 bytes. -/
theorem newFixedTraceID_spec_witness :
    NewFixedTraceID "zz" = none ∧
    (∃ bs, NewFixedTraceID "0123456789abcdef0123456789abcdef" = some bs ∧
      bs.length = 16 ∧
      hexDecode "0123456789abcdef0123456789abcdef".toList = some bs) :=
  ⟨(newFixedTraceID_spec "zz").1 (Or.inl (by decide)),
   (newFixedTraceID_spec "0123456789abcdef0123456789abcdef").2 (by decide)
     (by decide)⟩

/-- C4: for every context, every 16-byte valid TraceID `t` and every
randomized SpanID, reading the TraceID back from `WithTraceID ctx t sid`
yields `t` byte-for-byte, and `WithTraceID` does not mutate its input: it
returns a derived context that extends the untouched input context. -/
theorem getTraceID_withTraceID_roundtrip (ctx : Context) (t sid : List Nat)
    (hlen : t.length = 16) (hvalid : traceIDIsValid t = true) :
    GetTraceID (WithTraceID ctx t sid) = t ∧
    ∃ e, WithTraceID ctx t sid = e :: ctx :=
  ⟨rfl, ⟨CtxEntry.span (NewSpanContext t sid false), rfl⟩⟩

/-- C4 witness: the round trip at a concrete context, valid TraceID and
SpanID. -/
theorem getTraceID_withTraceID_roundtrip_witness :
    (1 :: List.replicate 15 0).length = 16 ∧
    traceIDIsValid (1 :: List.replicate 15 0) = true ∧
    (GetTraceID (WithTraceID [CtxEntry.value "k" "v"]
        (1 :: List.replicate 15 0) (List.replicate 8 2)) =
      (1 :: List.replicate 15 0) ∧
     ∃ e, WithTraceID [CtxEntry.value "k" "v"]
        (1 :: List.replicate 15 0) (List.replicate 8 2) =
          e :: [CtxEntry.value "k" "v"]) :=
  ⟨by decide, by decide,
   getTraceID_withTraceID_roundtrip [CtxEntry.value "k" "v"]
     (1 :: List.replicate 15 0) (List.replicate 8 2) (by decide) (by decide)⟩

/-- C8: on a context carrying no span, `GetTraceID` returns the all-zero
TraceID, and that value reports as invalid.  (`GetTraceID` is a total
function of the context: it never fails on any input.) -/
theorem getTraceID_no_span (ctx : Context) (h : SpanFromContext ctx = none) :
    GetTraceID ctx = zeroTraceID16 ∧
    traceIDIsValid (GetTraceID ctx) = false := by
  unfold GetTraceID
  rw [h]
  exact ⟨rfl, by decide⟩

/-- C8 witness: a concrete span-free context. -/
theorem getTraceID_no_span_witness :
    GetTraceID [CtxEntry.value "k" "v"] = zeroTraceID16 ∧
    traceIDIsValid (GetTraceID [CtxEntry.value "k" "v"]) = false :=
  getTraceID_no_span [CtxEntry.value "k" "v"] rfl

/-- C10: the `WithTraceID`/`GetTraceID` round trip also holds for the
invalid all-zero TraceID: the span context is stored and read back
unconditionally, with no validity filtering. -/
theorem getTraceID_withTraceID_zero (ctx : Context) (sid : List Nat) :
    GetTraceID (WithTraceID ctx zeroTraceID16 sid) = zeroTraceID16 := rfl

/-! ## Claim theorems: configuration and backend setup -/

/-- C7: setup with the empty configuration string returns success without
consulting any backend constructor (the result does not depend on `env` or
on the URL-parse outcome) and leaves the process-wide state untouched: no
tracer provider is installed and no propagator is set. -/
theorem setup_empty_noop (env : Env) (sn : String) (parsed : Except String URL) :
    SetupOpenTelemetry env sn "" parsed =
      .ok { provider := none, propagator := false } := rfl

/-- C6: with a non-empty configuration string, a URL-parse failure is a
configuration error; a parsed URL with a scheme outside the five recognized
ones is an unsupported-backend error; and each recognized scheme dispatches
to exactly its backend registration function. -/
theorem setup_dispatch (env : Env) (sn : String) (conf : String)
    (parsed : Except String URL) (hconf : conf ≠ "") :
    (∀ e, parsed = .error e → SetupOpenTelemetry env sn conf parsed =
      .error (.configError
        ("parsing env var DTRACING with value " ++ conf ++ ": " ++ e))) ∧
    (∀ u, parsed = .ok u →
      (u.scheme ∉ ["stdout", "cloudtrace", "otelcol", "zipkin", "jaeger"] →
        SetupOpenTelemetry env sn conf parsed =
          .error (.unsupportedScheme u.scheme)) ∧
      (u.scheme = "stdout" →
        SetupOpenTelemetry env sn conf parsed = registerStdout env sn u) ∧
      (u.scheme = "cloudtrace" →
        SetupOpenTelemetry env sn conf parsed = registerCloudTrace env sn u) ∧
      (u.scheme = "otelcol" →
        SetupOpenTelemetry env sn conf parsed = registerOtelcol env sn u) ∧
      (u.scheme = "zipkin" →
        SetupOpenTelemetry env sn conf parsed = registerZipkin env sn u) ∧
      (u.scheme = "jaeger" →
        SetupOpenTelemetry env sn conf parsed = registerJaeger env sn u)) := by
  constructor
  · intro e he
    subst he
    simp [SetupOpenTelemetry, hconf]
  · intro u hu
    subst hu
    refine ⟨?_, ?_, ?_, ?_, ?_, ?_⟩
    · intro hnot
      unfold SetupOpenTelemetry
      rw [if_neg hconf]
      split <;> simp_all
    all_goals
      intro hs
      simp [SetupOpenTelemetry, hconf, hs]

/-- C1: the cloud-trace registration parses the `ratio` query parameter
unconditionally; when `ratio` is absent, `Get` yields the empty string,
`ParseFloat` rejects it and setup fails with the ratio configuration error
even though the exporter and resource were constructed successfully — there
is no 0.25 default in the code. -/
theorem cloudtrace_absent_ratio_fails (env : Env) (sn : String) (u : URL)
    (exp : Exporter) (res : Resource)
    (hexp : env.texporterNew (u.queryGet "project_id") = .ok exp)
    (hres : env.resCloud = .ok res)
    (hratio : u.queryGet "ratio" = "")
    (hpf : env.parseFloat "" = none) :
    registerCloudTrace env sn u = .error (.configError "parsing ratio") := by
  simp [registerCloudTrace, hexp, hres, hratio, hpf]

/-- C1 witness: a concrete cloud-trace URL without a `ratio` parameter, in
an environment in which every constructor succeeds. -/
theorem cloudtrace_absent_ratio_fails_witness :
    registerCloudTrace envOK "svc" ⟨"cloudtrace", "", [("project_id", "p")]⟩ =
      .error (.configError "parsing ratio") :=
  cloudtrace_absent_ratio_fails envOK "svc"
    ⟨"cloudtrace", "", [("project_id", "p")]⟩ expOK resOK rfl rfl rfl rfl

/-- C2: when the zipkin exporter constructor fails, the error is dropped:
registration still installs a tracer provider (with no exporter handle) and
returns success, because the error returned by `zipkin.New` is never
checked. -/
theorem zipkin_constructor_error_dropped (env : Env) (sn : String) (u : URL)
    (res : Resource) (e : String)
    (hres : env.resZipkin = .ok res)
    (hfail : env.zipkinNew
      (u.queryGet "scheme" ++ "://" ++ u.host ++ "/api/v2/spans") = .error e) :
    registerZipkin env sn u =
      .ok ⟨some ⟨"zipkin", sn, .alwaysSample, none,
             some (u.queryGet "scheme" ++ "://" ++ u.host ++ "/api/v2/spans"),
             res⟩,
           true⟩ := by
  simp [registerZipkin, hres, hfail]

/-- An environment identical to `envOK` except that the zipkin exporter
constructor fails. -/
def envZipkinFail : Env :=
  { envOK with zipkinNew := fun _ => .error "connection refused" }

/-- C2 witness: a concrete zipkin URL (no `scheme` query parameter, so the
endpoint is malformed) whose exporter constructor fails, yet registration
returns success. -/
theorem zipkin_constructor_error_dropped_witness :
    registerZipkin envZipkinFail "svc" ⟨"zipkin", "localhost:9411", []⟩ =
      .ok ⟨some ⟨"zipkin", "svc", .alwaysSample, none,
             some "://localhost:9411/api/v2/spans", resOK⟩,
           true⟩ :=
  zipkin_constructor_error_dropped envZipkinFail "svc"
    ⟨"zipkin", "localhost:9411", []⟩ resOK "connection refused" rfl rfl

/-! Concrete URLs and resulting states for the backend witnesses. -/

/-- A concrete stdout configuration URL. -/
def uStdout : URL := ⟨"stdout", "", []⟩

/-- A concrete cloudtrace configuration URL with a parseable ratio. -/
def uCloud : URL := ⟨"cloudtrace", "", [("project_id", "p"), ("ratio", "0.25")]⟩

/-- A concrete otelcol configuration URL. -/
def uOtelcol : URL := ⟨"otelcol", "localhost:30080", []⟩

/-- A concrete zipkin configuration URL. -/
def uZipkin : URL := ⟨"zipkin", "localhost:9411", [("scheme", "http")]⟩

/-- A concrete jaeger configuration URL. -/
def uJaeger : URL := ⟨"jaeger", "localhost:14268", [("scheme", "http")]⟩

/-- The state installed by `registerStdout envOK "svc" uStdout`. -/
def stStdout : GlobalState :=
  ⟨some ⟨"stdout", "svc", .defaultSampler, some expOK, none, resOK⟩, false⟩

/-- The state installed by `registerCloudTrace envOK "svc" uCloud`. -/
def stCloud : GlobalState :=
  ⟨some ⟨"cloudtrace", "svc", .ratioBased (1/4 : Rat), some expOK, none, resOK⟩, false⟩

/-- The state installed by `registerOtelcol envOK "svc" uOtelcol`. -/
def stOtelcol : GlobalState :=
  ⟨some ⟨"otelcol", "svc", .alwaysSample, some expOK, none, resOK⟩, true⟩

/-- The state installed by `registerZipkin envOK "svc" uZipkin`. -/
def stZipkin : GlobalState :=
  ⟨some ⟨"zipkin", "svc", .alwaysSample, some expOK,
    some "http://localhost:9411/api/v2/spans", resOK⟩, true⟩

/-- The state installed by `registerJaeger envOK "svc" uJaeger`. -/
def stJaeger : GlobalState :=
  ⟨some ⟨"jaeger", "svc", .alwaysSample, some expOK,
    some "http://localhost:14268/api/traces", resOK⟩, true⟩

/-- C3 counterexample: a successful cloud-trace setup — a non-console
backend — that does not install a propagation format: the claim that every
successful non-console setup installs one is false on the code. -/
theorem cloudtrace_success_without_propagator :
    (registerCloudTrace envOK "svc" uCloud).map GlobalState.propagator =
      .ok false := rfl

/-- C3 amended: successful setups of the otelcol, zipkin and jaeger
backends install the global trace-context propagation format; successful
setups of the console (stdout) backend and of the cloud-trace backend do
not install one. -/
theorem propagator_installation_per_backend (env : Env) (sn : String)
    (u : URL) (s : GlobalState) :
    (registerStdout env sn u = .ok s → s.propagator = false) ∧
    (registerCloudTrace env sn u = .ok s → s.propagator = false) ∧
    (registerOtelcol env sn u = .ok s → s.propagator = true) ∧
    (registerZipkin env sn u = .ok s → s.propagator = true) ∧
    (registerJaeger env sn u = .ok s → s.propagator = true) := by
  refine ⟨?_, ?_, ?_, ?_, ?_⟩ <;> intro h
  · cases h1 : env.stdoutNew <;> simp [registerStdout, h1] at h
    cases h2 : env.resStdout <;> simp [h2] at h
    subst h
    rfl
  · cases h1 : env.texporterNew (u.queryGet "project_id") <;>
      simp [registerCloudTrace, h1] at h
    cases h2 : env.resCloud <;> simp [h2] at h
    cases h3 : env.parseFloat (u.queryGet "ratio") <;> simp [h3] at h
    subst h
    rfl
  · cases h1 : env.resOtelcol <;> simp [registerOtelcol, h1] at h
    cases h2 : env.grpcDial u.host <;> simp [h2] at h
    rename_i conn
    cases h3 : env.otlpNew conn <;> simp [h3] at h
    subst h
    rfl
  · cases h1 : env.resZipkin <;> simp [registerZipkin, h1] at h
    subst h
    rfl
  · cases h1 : env.resJaeger <;> simp [registerJaeger, h1] at h
    cases h2 : env.jaegerNew
        (u.queryGet "scheme" ++ "://" ++ u.host ++ "/api/traces") <;>
      simp [h2] at h
    subst h
    rfl

/-- C3 amended witness: all five backends run to success in `envOK`, with
the propagator installed exactly for otelcol, zipkin and jaeger. -/
theorem propagator_installation_per_backend_witness :
    (registerStdout envOK "svc" uStdout = .ok stStdout ∧
      stStdout.propagator = false) ∧
    (registerCloudTrace envOK "svc" uCloud = .ok stCloud ∧
      stCloud.propagator = false) ∧
    (registerOtelcol envOK "svc" uOtelcol = .ok stOtelcol ∧
      stOtelcol.propagator = true) ∧
    (registerZipkin envOK "svc" uZipkin = .ok stZipkin ∧
      stZipkin.propagator = true) ∧
    (registerJaeger envOK "svc" uJaeger = .ok stJaeger ∧
      stJaeger.propagator = true) :=
  ⟨⟨rfl, (propagator_installation_per_backend envOK "svc" uStdout stStdout).1 rfl⟩,
   ⟨rfl, (propagator_installation_per_backend envOK "svc" uCloud stCloud).2.1 rfl⟩,
   ⟨rfl, (propagator_installation_per_backend envOK "svc" uOtelcol stOtelcol).2.2.1 rfl⟩,
   ⟨rfl, (propagator_installation_per_backend envOK "svc" uZipkin stZipkin).2.2.2.1 rfl⟩,
   ⟨rfl, (propagator_installation_per_backend envOK "svc" uJaeger stJaeger).2.2.2.2 rfl⟩⟩

/-- C9: whenever zipkin registration succeeds, the endpoint handed to the
zipkin exporter constructor (recorded on the installed provider) is
`scheme://host/api/v2/spans`, with `scheme` the value of the `scheme` query
parameter and `host` the URL host. -/
theorem zipkin_export_endpoint (env : Env) (sn : String) (u : URL)
    (s : GlobalState) (h : registerZipkin env sn u = .ok s) :
    ∃ p, s.provider = some p ∧
      p.endpoint = some
        (u.queryGet "scheme" ++ "://" ++ u.host ++ "/api/v2/spans") := by
  unfold registerZipkin at h
  split at h
  · simp at h
  · simp only [Except.ok.injEq] at h
    subst h
    exact ⟨_, rfl, rfl⟩

/-- C9 witness: `zipkin://localhost:9411?scheme=http` targets
`http://localhost:9411/api/v2/spans`. -/
theorem zipkin_export_endpoint_witness :
    registerZipkin envOK "svc" uZipkin = .ok stZipkin ∧
    ∃ p, stZipkin.provider = some p ∧
      p.endpoint = some "http://localhost:9411/api/v2/spans" :=
  ⟨rfl, by
    obtain ⟨p, hp, he⟩ := zipkin_export_endpoint envOK "svc" uZipkin stZipkin rfl
    exact ⟨p, hp, he.trans rfl⟩⟩

/-- An unrecognized-scheme URL used by the C6 witness. -/
def uFoo : URL := ⟨"foo", "example.com", []⟩

/-- C6 witness: a concrete parse failure, a concrete unsupported scheme,
and a concrete dispatch to the zipkin registration. -/
theorem setup_dispatch_witness :
    SetupOpenTelemetry envOK "svc" ":" (.error "missing protocol scheme") =
      .error (.configError
        ("parsing env var DTRACING with value " ++ ":" ++ ": " ++
          "missing protocol scheme")) ∧
    SetupOpenTelemetry envOK "svc" "foo://example.com" (.ok uFoo) =
      .error (.unsupportedScheme "foo") ∧
    SetupOpenTelemetry envOK "svc" "zipkin://localhost:9411?scheme=http"
        (.ok uZipkin) = registerZipkin envOK "svc" uZipkin := by
  refine ⟨?_, ?_, ?_⟩
  · exact (setup_dispatch envOK "svc" ":" (.error "missing protocol scheme")
      (by decide)).1 "missing protocol scheme" rfl
  · exact ((setup_dispatch envOK "svc" "foo://example.com" (.ok uFoo)
      (by decide)).2 uFoo rfl).1 (by decide)
  · exact ((setup_dispatch envOK "svc" "zipkin://localhost:9411?scheme=http"
      (.ok uZipkin) (by decide)).2 uZipkin rfl).2.2.2.2.1 rfl
